import Mathlib

/-!
Verification of the email-triage backend (`backend.py`).

The development shallowly embeds the pure transformation core of the
program: support filtering, priority and sentiment classification,
key-information extraction, fallback response drafting, batch
processing with its final two-key sort, persistence, and the
send-confirmation status update.

Modelling conventions:
* Python strings are Lean `String`s; `str.lower()` is modelled as a
  per-character ASCII lowercase map, the Python `in` substring test as
  `substrB`, `str.strip()` as `trimStr`, and string comparison as the
  lexicographic code-point order `strLeB`.
* Calls to the external generative-text service are modelled by an
  `Option String` outcome per call: `none` means the call raised an
  exception, `some reply` means it returned `reply`.
* The two `re.findall` calls in `extract_key_info` are modelled by
  oracle parameters holding their result lists; nothing proved here
  depends on the content of those lists.
* `datetime.now()` is a `DateTime` parameter; `strftime` zero padding
  is modelled by `pad2`/`pad4`.
* The SQLite table is a `List EmailRow`; a failing `INSERT` is
  modelled by a `saveOk` predicate on the record being written.
-/

namespace Backend

/-- ASCII lowercase of one character, as Python lowercases the ASCII range. -/
def lowChar (c : Char) : Char := c.toLower

/-- Model of Python `str.lower()`: character-wise lowercase. -/
def lowerStr (s : String) : String := String.mk (s.data.map lowChar)

/-- Bool test that `n` is a prefix of `h` (character lists). -/
def listPrefixOf : List Char → List Char → Bool
  | [], _ => true
  | _ :: _, [] => false
  | a :: as, b :: bs => if a = b then listPrefixOf as bs else false

/-- Bool test that `n` occurs as a contiguous run inside `h`. -/
def listInfixOf (n : List Char) : List Char → Bool
  | [] => n.isEmpty
  | b :: bs => listPrefixOf n (b :: bs) || listInfixOf n bs

/-- Model of the Python substring test `needle in hay`. -/
def substrB (needle hay : String) : Bool := listInfixOf needle.data hay.data

/-- Whitespace characters stripped by Python `str.strip()`. -/
def isSpaceChar (c : Char) : Bool :=
  c.toNat = 32 || c.toNat = 9 || c.toNat = 10 || c.toNat = 13 || c.toNat = 11 || c.toNat = 12

/-- Model of Python `str.strip()`. -/
def trimStr (s : String) : String :=
  String.mk (((s.data.dropWhile isSpaceChar).reverse.dropWhile isSpaceChar).reverse)

/-- Model of Python `", ".join(l)`. -/
def joinComma : List String → String
  | [] => ""
  | [x] => x
  | x :: y :: xs => x ++ ", " ++ joinComma (y :: xs)

/-- Lexicographic code-point order on character lists; this is the
comparison Python uses for `str` sort keys. -/
def listLeB : List Char → List Char → Bool
  | [], _ => true
  | _ :: _, [] => false
  | a :: as, b :: bs =>
    decide (a.toNat < b.toNat) || (decide (a.toNat = b.toNat) && listLeB as bs)

/-- Python string comparison `a <= b`, as used by `sorted` on the tuple key. -/
def strLeB (a b : String) : Bool := listLeB a.data b.data

/-- Config.SUPPORT_KEYWORDS (backend.py line 41). -/
def SUPPORT_KEYWORDS : List String :=
  ["support", "query", "request", "help", "issue", "problem"]

/-- Config.URGENT_KEYWORDS (backend.py lines 42-43). -/
def URGENT_KEYWORDS : List String :=
  ["urgent", "critical", "immediate", "emergency", "asap",
   "cannot access", "down", "blocked", "failed", "error"]

/-- An inbound message as assembled by `fetch_emails` (backend.py lines 118-123). -/
structure EmailData where
  sender : String
  subject : String
  body : String
  sent_date : String
deriving DecidableEq, Repr

/-- EmailProcessor.is_support_email (backend.py lines 143-146). -/
def is_support_email (subject body : String) : Bool :=
  let text := lowerStr (subject ++ " " ++ body)
  SUPPORT_KEYWORDS.any (fun keyword => substrB keyword text)

/-- EmailProcessor.determine_priority (backend.py lines 175-178). -/
def determine_priority (subject body : String) : String :=
  let text := lowerStr (subject ++ " " ++ body)
  if URGENT_KEYWORDS.any (fun keyword => substrB keyword text) then "urgent" else "normal"

/-- Positive word list of the sentiment fallback (backend.py line 162). -/
def positive_words : List String :=
  ["good", "great", "excellent", "happy", "satisfied", "love", "amazing"]

/-- Negative word list of the sentiment fallback (backend.py line 163). -/
def negative_words : List String :=
  ["bad", "terrible", "frustrated", "angry", "disappointed", "problem", "issue",
   "cannot", "unable"]

/-- Keyword fallback branch of EmailProcessor.analyze_sentiment
(backend.py lines 160-173): `sum(1 for word in words if word in text_lower)`
counts the list words occurring in the lowercased text. -/
def fallback_sentiment (text : String) : String :=
  let text_lower := lowerStr text
  let positive_count := positive_words.countP (fun word => substrB word text_lower)
  let negative_count := negative_words.countP (fun word => substrB word text_lower)
  if negative_count > positive_count then "negative"
  else if positive_count > negative_count then "positive"
  else "neutral"

/-- EmailProcessor.analyze_sentiment (backend.py lines 148-173). `api` is the
outcome of the external call: `some reply` on success (the code then returns
`reply.strip().lower()` unconditionally), `none` when the call raised, which
takes the keyword fallback branch. -/
def analyze_sentiment (api : Option String) (text : String) : String :=
  match api with
  | some reply => lowerStr (trimStr reply)
  | none => fallback_sentiment text

/-- EmailProcessor.extract_key_info (backend.py lines 180-212). The results of
the two `re.findall` calls (email addresses and phone numbers found in
`subject + " " + body`) are passed in as `emails_found` and `phones`; the
category chain follows the source exactly. -/
def extract_key_info (emails_found phones : List String) (email_data : EmailData) : List String :=
  let text := email_data.subject ++ " " ++ email_data.body
  let text_lower := lowerStr text
  let info₁ : List String :=
    if emails_found.isEmpty then [] else ["Contact: " ++ joinComma emails_found]
  let info₂ : List String :=
    if phones.isEmpty then info₁ else info₁ ++ ["Phone: " ++ joinComma phones]
  let category : String :=
    if substrB ("billing") text_lower || substrB ("payment") text_lower then
      "Request Type: Billing Issue"
    else if substrB ("login") text_lower || substrB ("account") text_lower then
      "Request Type: Account Access"
    else if substrB ("integration") text_lower || substrB ("api") text_lower then
      "Request Type: Technical Integration"
    else if substrB ("refund") text_lower then
      "Request Type: Refund Request"
    else if substrB ("pricing") text_lower then
      "Request Type: Pricing Inquiry"
    else
      "Request Type: General Support"
  let info := info₂ ++ [category]
  if info.isEmpty then ["Request Type: General Support"] else info

/-- The request-type category chain of `extract_key_info` (backend.py lines
198-210), as a function of the lowercased text. -/
def categoryLine (tl : String) : String :=
  if substrB ("billing") tl || substrB ("payment") tl then
    "Request Type: Billing Issue"
  else if substrB ("login") tl || substrB ("account") tl then
    "Request Type: Account Access"
  else if substrB ("integration") tl || substrB ("api") tl then
    "Request Type: Technical Integration"
  else if substrB ("refund") tl then
    "Request Type: Refund Request"
  else if substrB ("pricing") tl then
    "Request Type: Pricing Inquiry"
  else
    "Request Type: General Support"

/-- Bool test that an extracted line starts with `"Request Type:"`. -/
def isRT (l : String) : Bool := listPrefixOf ("Request Type:").data l.data

/-- Wall-clock timestamp used by the fallback drafter; stands for
`datetime.now()`. -/
structure DateTime where
  year : Nat
  month : Nat
  day : Nat
  hour : Nat
  minute : Nat
  second : Nat
deriving DecidableEq, Repr

/-- Two-digit zero padding of `strftime` fields such as `%m`. -/
def pad2 (n : Nat) : String := if n < 10 then "0" ++ Nat.repr n else Nat.repr n

/-- Four-digit zero padding of `strftime` field `%Y`. -/
def pad4 (n : Nat) : String :=
  if n < 10 then "000" ++ Nat.repr n
  else if n < 100 then "00" ++ Nat.repr n
  else if n < 1000 then "0" ++ Nat.repr n
  else Nat.repr n

/-- Model of `datetime.now().strftime("%Y%m%d%H%M%S")` (backend.py line 256). -/
def stampYmdHms (d : DateTime) : String :=
  pad4 d.year ++ pad2 d.month ++ pad2 d.day ++ pad2 d.hour ++ pad2 d.minute ++ pad2 d.second

/-- Display name derived from the sender (backend.py line 255):
`sender.split('@')[0].replace('<', '').replace('>', '')`. -/
def senderDisplayName (sender : String) : String :=
  String.mk ((sender.data.takeWhile (fun c => c.toNat ≠ 64)).filter
    (fun c => c.toNat ≠ 60 && c.toNat ≠ 62))

/-- Signature line shared by both fallback templates (backend.py lines 269-270
and 282-283). -/
def signTail : String := "\n\nBest regards,\nAI Support Assistant"

/-- Fixed text of the urgent-and-negative template between the sender name and
the case-number label (backend.py lines 259-267). -/
def unBody : String :=
  ",\n\nThank you for reaching out, and I sincerely apologize for the inconvenience you\x27re experiencing. I understand how critical this situation is for you.\n\nI\x27ve escalated your case as urgent and our priority support team is now handling your request. We\x27re treating this as a high-priority issue and will work to resolve it as quickly as possible.\n\nYou can expect an update within the next 2 hours with a resolution or detailed action plan.\n\n"

/-- Label preceding the case number in the urgent-and-negative template. -/
def caseLbl : String := "Case Number: "

/-- Body of the urgent-and-negative fallback template (backend.py lines 259-270). -/
def urgentNegativeReply (name caseNumber : String) : String :=
  "Dear " ++ name ++ unBody ++ caseLbl ++ caseNumber ++ signTail

/-- Fixed opening of the generic fallback template (backend.py lines 274-277). -/
def genMid : String :=
  ",\n\nThank you for contacting our support team. I\x27ve received your inquiry and our team is reviewing your request.\n\n"

/-- Urgency qualifier clause prefixed to the timeline sentence when the
priority is urgent (backend.py line 278). -/
def urgencyClause : String := "Given the urgent nature of your request, "

/-- Fixed start of the timeline sentence (backend.py line 278). -/
def provideLit : String := "We\x27ll provide you with a comprehensive response within "

/-- Fixed text between the timeline and the case number in the generic
template (backend.py lines 278-280). -/
def caseMid : String := ".\n\nCase Number: "

/-- Body of the generic fallback template (backend.py lines 272-283). -/
def genericReply (name : String) (priority : String) (caseNumber : String) : String :=
  let timeline : String := if priority = "urgent" then "2 hours" else "24 hours"
  "Dear " ++ name ++ genMid ++
  (if priority = "urgent" then urgencyClause else "") ++
  provideLit ++ timeline ++ caseMid ++ caseNumber ++ signTail

/-- EmailProcessor.generate_fallback_response (backend.py lines 253-283). -/
def generate_fallback_response (email_data : EmailData) (sentiment priority : String)
    (now : DateTime) : String :=
  let sender_name := senderDisplayName email_data.sender
  let case_number := "CS" ++ stampYmdHms now
  if priority = "urgent" ∧ sentiment = "negative" then
    urgentNegativeReply sender_name case_number
  else
    genericReply sender_name priority case_number

/-- EmailProcessor.generate_ai_response (backend.py lines 214-251). `api` is the
outcome of the external drafting call; on success the code returns the reply
stripped, on any exception it returns the fallback template. -/
def generate_ai_response (api : Option String) (email_data : EmailData)
    (sentiment priority : String) (now : DateTime) : String :=
  match api with
  | some reply => trimStr reply
  | none => generate_fallback_response email_data sentiment priority now

/-- A processed email as assembled in process_emails (backend.py lines 296-302):
the original message dict extended with the four derived fields. -/
structure ProcessedEmail extends EmailData where
  sentiment : String
  priority : String
  extracted_info : List String
  ai_response : String
deriving DecidableEq, Repr

/-- Outcomes of all external effects during one batch: the two generative-text
calls per message and the wall clock. -/
structure ExternalEnv where
  sentimentApi : EmailData → Option String
  draftApi : EmailData → Option String
  emailsFound : String → List String
  phonesFound : String → List String
  now : DateTime

/-- The per-message body of the loop in process_emails (backend.py lines 289-302). -/
def processOne (env : ExternalEnv) (email_data : EmailData) : ProcessedEmail :=
  let text := email_data.subject ++ " " ++ email_data.body
  let sentiment := analyze_sentiment (env.sentimentApi email_data) text
  let priority := determine_priority email_data.subject email_data.body
  let extracted_info := extract_key_info (env.emailsFound text) (env.phonesFound text) email_data
  let ai_response := generate_ai_response (env.draftApi email_data) email_data sentiment priority env.now
  { toEmailData := email_data, sentiment := sentiment, priority := priority,
    extracted_info := extracted_info, ai_response := ai_response }

/-- First sort key of the final sort (backend.py line 309): `x['priority'] != 'urgent'`. -/
def notUrgent (x : ProcessedEmail) : Bool := decide (x.priority ≠ "urgent")

/-- The two-key sort order of backend.py line 309: Python tuple comparison on
`(priority != 'urgent', sent_date)` with `False < True` and raw string
comparison of dates. -/
def keyLe (x y : ProcessedEmail) : Prop :=
  (notUrgent x = false ∧ notUrgent y = true) ∨
  (notUrgent x = notUrgent y ∧ strLeB x.sent_date y.sent_date = true)

instance : DecidableRel keyLe := fun x y => by unfold keyLe; infer_instance

/-- EmailProcessor.process_emails (backend.py lines 285-309) in the run where
every database insert succeeds. Python `sorted` is a stable sort; it is
modelled by `List.insertionSort`, which is stable for the same key (the
stability of the model is proved, not assumed, in the ordering theorem). -/
def process_emails (env : ExternalEnv) (emails : List EmailData) : List ProcessedEmail :=
  List.insertionSort keyLe (emails.map (processOne env))

/-- One run of the process_emails loop with a fallible store. `saveOk p = false`
means the `INSERT` for `p` raises; the exception propagates out of the loop,
as in the source, aborting the batch. Returns the outcome (the sorted batch,
or the record whose insert raised) together with the list of insert attempts
actually made, in order. -/
def runStore (env : ExternalEnv) (saveOk : ProcessedEmail → Bool) :
    List EmailData → List ProcessedEmail → List ProcessedEmail →
    Except ProcessedEmail (List ProcessedEmail) × List ProcessedEmail
  | [], acc, attempts => (Except.ok (List.insertionSort keyLe acc), attempts)
  | e :: rest, acc, attempts =>
    if saveOk (processOne env e) then
      runStore env saveOk rest (acc ++ [processOne env e]) (attempts ++ [processOne env e])
    else (Except.error (processOne env e), attempts ++ [processOne env e])

/-- EmailProcessor.process_emails with the persistence effect made explicit. -/
def process_emailsRun (env : ExternalEnv) (saveOk : ProcessedEmail → Bool)
    (emails : List EmailData) : Except ProcessedEmail (List ProcessedEmail) × List ProcessedEmail :=
  runStore env saveOk emails [] []

/-- The filtering step of fetch_emails (backend.py lines 104-123): of the
messages extracted from the mailbox, exactly those passing is_support_email
are appended to the returned batch. The IMAP transport is abstracted as the
input list. -/
def fetch_filter (raws : List EmailData) : List EmailData :=
  raws.filter (fun m => is_support_email m.subject m.body)

/-- A row of the `emails` table (backend.py lines 59-73). `id` and
`created_at` are generated by SQLite and irrelevant here; `extracted_info` is
stored serialized and modelled as the list itself. -/
structure EmailRow where
  sender : String
  subject : String
  body : String
  sent_date : String
  sentiment : String
  priority : String
  extracted_info : List String
  ai_response : String
  status : String
deriving DecidableEq, Repr

/-- EmailProcessor.save_email (backend.py lines 311-332): the INSERT leaves
`status` at its column default `'pending'`. -/
def save_email (db : List EmailRow) (p : ProcessedEmail) : List EmailRow :=
  db ++ [{ sender := p.sender, subject := p.subject, body := p.body,
           sent_date := p.sent_date, sentiment := p.sentiment, priority := p.priority,
           extracted_info := p.extracted_info, ai_response := p.ai_response,
           status := "pending" }]

/-- Every field of a row except `status`. -/
def rowContent (r : EmailRow) :
    String × String × String × String × String × String × List String × String :=
  (r.sender, r.subject, r.body, r.sent_date, r.sentiment, r.priority,
   r.extracted_info, r.ai_response)

/-- The send_response endpoint (backend.py lines 392-417). `sendOk` is the
boolean returned by send_email_response (the SMTP transport outcome). On
success the code runs
`UPDATE emails SET status = 'sent' WHERE sender = ? AND subject = ?`
with `(recipient, subject)`; on failure it touches nothing. Returns the new
table and the success flag. -/
def send_response (db : List EmailRow) (sendOk : Bool)
    (recipient subject _response : String) : List EmailRow × Bool :=
  if sendOk then
    (db.map (fun r =>
      if r.sender = recipient ∧ r.subject = subject then { r with status := "sent" } else r),
     true)
  else
    (db, false)

/-- Concrete environment fixture: both external calls fail, regex oracles
find nothing, fixed clock. -/
def cEnv : ExternalEnv :=
  { sentimentApi := fun _ => none, draftApi := fun _ => none,
    emailsFound := fun _ => [], phonesFound := fun _ => [],
    now := ⟨2024, 1, 2, 3, 4, 5⟩ }

/-- Concrete support-relevant message whose insert will be made to fail. -/
def cm1 : EmailData := ⟨"fail@x", "help", "billing issue", "2024-01-01"⟩

/-- Concrete support-relevant message that follows the failing one. -/
def cm2 : EmailData := ⟨"ok@x", "help", "refund please", "2024-01-02"⟩

/-- Store oracle failing exactly on records whose sender is `fail@x`. -/
def cSaveOk : ProcessedEmail → Bool := fun p => decide (p.sender ≠ "fail@x")

/-- Concrete message containing a support keyword. -/
def cs1 : EmailData := ⟨"a@x", "help", "x", "d1"⟩

/-- Concrete message containing no support keyword. -/
def cns : EmailData := ⟨"b@x", "hello", "nothing at all", "d2"⟩

/-- Concrete stored row with pending status, matching the witness request. -/
def cRow1 : EmailRow :=
  ⟨"alice@x", "subj", "b", "d", "neutral", "normal",
   ["Request Type: General Support"], "resp", "pending"⟩

/-- Concrete stored row that does not match the witness request. -/
def cRow2 : EmailRow :=
  ⟨"bob@x", "other", "b2", "d2", "negative", "urgent", [], "resp2", "sent"⟩

/-! ### Substring machinery: `substrB` means contiguous containment -/

theorem listPrefixOf_iff {n h : List Char} : listPrefixOf n h = true ↔ ∃ t, h = n ++ t := by
  induction n generalizing h with
  | nil => simp [listPrefixOf]
  | cons a as ih =>
    cases h with
    | nil => simp [listPrefixOf]
    | cons b bs =>
      by_cases hab : a = b
      · subst hab
        simp [listPrefixOf, ih]
      · simp only [listPrefixOf, if_neg hab]
        constructor
        · intro h0; exact absurd h0 (by simp)
        · rintro ⟨t, ht⟩
          rw [List.cons_append] at ht
          exact absurd (List.cons.inj ht).1.symm hab

theorem listInfixOf_iff {n h : List Char} : listInfixOf n h = true ↔ ∃ a b, h = a ++ n ++ b := by
  induction h with
  | nil =>
    simp only [listInfixOf, List.isEmpty_iff]
    constructor
    · rintro rfl; exact ⟨[], [], rfl⟩
    · rintro ⟨a, b, hab⟩
      have h1 : a ++ n = [] ∧ b = [] := List.append_eq_nil.mp hab.symm
      exact (List.append_eq_nil.mp h1.1).2
  | cons c cs ih =>
    simp only [listInfixOf, Bool.or_eq_true, listPrefixOf_iff, ih]
    constructor
    · rintro (⟨t, ht⟩ | ⟨a, b, hab⟩)
      · exact ⟨[], t, by simp [ht]⟩
      · exact ⟨c :: a, b, by simp [hab]⟩
    · rintro ⟨a, b, hab⟩
      cases a with
      | nil => exact Or.inl ⟨b, by simpa using hab⟩
      | cons x xs =>
        right
        refine ⟨xs, b, ?_⟩
        exact (List.cons.inj hab).2

theorem substr_iff {n h : String} : substrB n h = true ↔ ∃ a b, h.data = a ++ n.data ++ b := by
  unfold substrB
  exact listInfixOf_iff

theorem substr_build {n s : String} (a b : List Char) (h : s.data = a ++ n.data ++ b) :
    substrB n s = true :=
  substr_iff.mpr ⟨a, b, h⟩

theorem substr_appendL {n s : String} (t : String) (h : substrB n s = true) :
    substrB n (t ++ s) = true := by
  rcases substr_iff.mp h with ⟨a, b, hab⟩
  exact substr_build (t.data ++ a) b (by simp [String.data_append, hab])

theorem substr_appendR {n s : String} (t : String) (h : substrB n s = true) :
    substrB n (s ++ t) = true := by
  rcases substr_iff.mp h with ⟨a, b, hab⟩
  exact substr_build a (b ++ t.data) (by simp [String.data_append, hab])

/-! ### Basic string facts -/

theorem sLen_append (a b : String) : (a ++ b).length = a.length + b.length :=
  String.length_append a b

theorem sNe_of_data {s : String} (h : s.data ≠ []) : s ≠ "" := by
  intro h0; exact h (by simp [h0])

theorem dear_ne_empty (t : String) : ("Dear " ++ t) ≠ "" := by
  intro h
  have h2 : ("Dear " ++ t).length = 0 := by rw [h]; rfl
  rw [sLen_append] at h2
  have h3 : ("Dear " : String).length = 5 := by decide
  omega

/-! ### The lexicographic code-point order is reflexive, total and transitive -/

theorem listLeB_cons {a b : Char} {as bs : List Char} :
    listLeB (a :: as) (b :: bs) = true ↔
      a.toNat < b.toNat ∨ (a.toNat = b.toNat ∧ listLeB as bs = true) := by
  simp [listLeB]

theorem listLeB_refl : ∀ l : List Char, listLeB l l = true
  | [] => rfl
  | _ :: as => listLeB_cons.mpr (Or.inr ⟨rfl, listLeB_refl as⟩)

theorem listLeB_total : ∀ a b : List Char, listLeB a b = true ∨ listLeB b a = true
  | [], _ => Or.inl rfl
  | _ :: _, [] => Or.inr rfl
  | a :: as, b :: bs => by
    rcases Nat.lt_trichotomy a.toNat b.toNat with h | h | h
    · exact Or.inl (listLeB_cons.mpr (Or.inl h))
    · rcases listLeB_total as bs with h2 | h2
      · exact Or.inl (listLeB_cons.mpr (Or.inr ⟨h, h2⟩))
      · exact Or.inr (listLeB_cons.mpr (Or.inr ⟨h.symm, h2⟩))
    · exact Or.inr (listLeB_cons.mpr (Or.inl h))

theorem listLeB_trans : ∀ a b c : List Char,
    listLeB a b = true → listLeB b c = true → listLeB a c = true
  | [], _, _ => fun _ _ => rfl
  | _ :: _, [], _ => fun h _ => by simp [listLeB] at h
  | _ :: _, _ :: _, [] => fun _ h => by simp [listLeB] at h
  | a :: as, b :: bs, c :: cs => fun h1 h2 => by
    rcases listLeB_cons.mp h1 with h1 | ⟨h1e, h1r⟩ <;>
      rcases listLeB_cons.mp h2 with h2 | ⟨h2e, h2r⟩
    · exact listLeB_cons.mpr (Or.inl (h1.trans h2))
    · exact listLeB_cons.mpr (Or.inl (h2e ▸ h1))
    · exact listLeB_cons.mpr (Or.inl (h1e ▸ h2))
    · exact listLeB_cons.mpr (Or.inr ⟨h1e.trans h2e, listLeB_trans as bs cs h1r h2r⟩)

instance : IsTotal ProcessedEmail keyLe := by
  constructor
  intro x y
  by_cases hx : notUrgent x = notUrgent y
  · rcases listLeB_total x.sent_date.data y.sent_date.data with h | h
    · exact Or.inl (Or.inr ⟨hx, h⟩)
    · exact Or.inr (Or.inr ⟨hx.symm, h⟩)
  · rcases Bool.eq_false_or_eq_true (notUrgent x) with h1 | h1 <;>
      rcases Bool.eq_false_or_eq_true (notUrgent y) with h2 | h2
    · exact absurd (h1.trans h2.symm) hx
    · exact Or.inr (Or.inl ⟨h2, h1⟩)
    · exact Or.inl (Or.inl ⟨h1, h2⟩)
    · exact absurd (h1.trans h2.symm) hx

/-! ### Decimal rendering: length and digit facts about `Nat.repr` -/

theorem tdc_base (f n : Nat) (l : List Char) (h : n / 10 = 0) :
    Nat.toDigitsCore 10 (f + 1) n l = Nat.digitChar (n % 10) :: l := by
  simp [Nat.toDigitsCore, h]

theorem tdc_step (f n : Nat) (l : List Char) (h : n / 10 ≠ 0) :
    Nat.toDigitsCore 10 (f + 1) n l = Nat.toDigitsCore 10 f (n / 10) (Nat.digitChar (n % 10) :: l) := by
  simp [Nat.toDigitsCore, h]

theorem repr_data (n : Nat) : (Nat.repr n).data = Nat.toDigitsCore 10 (n + 1) n [] := rfl

theorem sLen_data (s : String) : s.length = s.data.length := by
  cases s
  rfl

theorem repr_len_one {n : Nat} (h : n < 10) : (Nat.repr n).length = 1 := by
  have : (Nat.repr n).data = [Nat.digitChar (n % 10)] := by
    rw [repr_data, tdc_base _ _ _ (by omega)]
  rw [sLen_data, this]
  rfl

theorem repr_len_two {n : Nat} (h10 : 10 ≤ n) (h : n < 100) : (Nat.repr n).length = 2 := by
  obtain ⟨m, rfl⟩ : ∃ m, n = m + 10 := ⟨n - 10, by omega⟩
  have hstep : (Nat.repr (m + 10)).data =
      Nat.toDigitsCore 10 (m + 10) ((m + 10) / 10) [Nat.digitChar ((m + 10) % 10)] := by
    rw [repr_data, tdc_step _ _ _ (by omega)]
  obtain ⟨k, hk⟩ : ∃ k, m + 10 = k + 1 := ⟨m + 9, by omega⟩
  rw [hk, tdc_base _ _ _ (by omega)] at hstep
  rw [sLen_data, hk, hstep]
  rfl

theorem repr_len_three {n : Nat} (h10 : 100 ≤ n) (h : n < 1000) : (Nat.repr n).length = 3 := by
  obtain ⟨m, rfl⟩ : ∃ m, n = m + 100 := ⟨n - 100, by omega⟩
  have hstep : (Nat.repr (m + 100)).data =
      Nat.toDigitsCore 10 (m + 100) ((m + 100) / 10) [Nat.digitChar ((m + 100) % 10)] := by
    rw [repr_data, tdc_step _ _ _ (by omega)]
  obtain ⟨k, hk⟩ : ∃ k, m + 100 = k + 1 := ⟨m + 99, by omega⟩
  rw [hk, tdc_step _ _ _ (by omega)] at hstep
  obtain ⟨j, hj⟩ : ∃ j, k = j + 1 := ⟨k - 1, by omega⟩
  rw [hj, tdc_base _ _ _ (by omega)] at hstep
  rw [sLen_data, hk, hj, hstep]
  rfl

theorem repr_len_four {n : Nat} (h10 : 1000 ≤ n) (h : n < 10000) : (Nat.repr n).length = 4 := by
  obtain ⟨m, rfl⟩ : ∃ m, n = m + 1000 := ⟨n - 1000, by omega⟩
  have hstep : (Nat.repr (m + 1000)).data =
      Nat.toDigitsCore 10 (m + 1000) ((m + 1000) / 10) [Nat.digitChar ((m + 1000) % 10)] := by
    rw [repr_data, tdc_step _ _ _ (by omega)]
  obtain ⟨k, hk⟩ : ∃ k, m + 1000 = k + 1 := ⟨m + 999, by omega⟩
  rw [hk, tdc_step _ _ _ (by omega)] at hstep
  obtain ⟨j, hj⟩ : ∃ j, k = j + 1 := ⟨k - 1, by omega⟩
  rw [hj, tdc_step _ _ _ (by omega)] at hstep
  obtain ⟨i, hi⟩ : ∃ i, j = i + 1 := ⟨j - 1, by omega⟩
  rw [hi, tdc_base _ _ _ (by omega)] at hstep
  rw [sLen_data, hk, hj, hi, hstep]
  rfl

theorem digitChar_isDigit {k : Nat} (h : k < 10) : (Nat.digitChar k).isDigit = true := by
  interval_cases k <;> decide

theorem tdc_digits : ∀ (f n : Nat) (l : List Char), (∀ c ∈ l, c.isDigit = true) →
    ∀ c ∈ Nat.toDigitsCore 10 f n l, c.isDigit = true
  | 0, _, _ => fun hl => hl
  | f + 1, n, l => fun hl => by
    by_cases h : n / 10 = 0
    · rw [tdc_base _ _ _ h]
      intro c hc
      rcases List.mem_cons.mp hc with rfl | hc
      · exact digitChar_isDigit (Nat.mod_lt _ (by omega))
      · exact hl c hc
    · rw [tdc_step _ _ _ h]
      refine tdc_digits f (n / 10) _ ?_
      intro c hc
      rcases List.mem_cons.mp hc with rfl | hc
      · exact digitChar_isDigit (Nat.mod_lt _ (by omega))
      · exact hl c hc

theorem repr_digits (n : Nat) : ∀ c ∈ (Nat.repr n).data, c.isDigit = true := by
  rw [repr_data]
  exact tdc_digits _ _ _ (by simp)

theorem pad2_length {n : Nat} (h : n < 100) : (pad2 n).length = 2 := by
  unfold pad2
  by_cases h10 : n < 10
  · rw [if_pos h10, sLen_append, repr_len_one h10]; rfl
  · rw [if_neg h10, repr_len_two (by omega) h]

theorem pad4_length {n : Nat} (h : n < 10000) : (pad4 n).length = 4 := by
  unfold pad4
  by_cases h10 : n < 10
  · rw [if_pos h10, sLen_append, repr_len_one h10]; rfl
  · rw [if_neg h10]
    by_cases h100 : n < 100
    · rw [if_pos h100, sLen_append, repr_len_two (by omega) h100]; rfl
    · rw [if_neg h100]
      by_cases h1000 : n < 1000
      · rw [if_pos h1000, sLen_append, repr_len_three (by omega) h1000]; rfl
      · rw [if_neg h1000, repr_len_four (by omega) h]

theorem pad2_digits (n : Nat) : ∀ c ∈ (pad2 n).data, c.isDigit = true := by
  unfold pad2
  intro c hc
  split at hc
  · rw [String.data_append] at hc
    rcases List.mem_append.mp hc with hc | hc
    · exact (by decide : ∀ x ∈ ("0" : String).data, x.isDigit = true) c hc
    · exact repr_digits _ c hc
  · exact repr_digits _ c hc

theorem pad4_digits (n : Nat) : ∀ c ∈ (pad4 n).data, c.isDigit = true := by
  unfold pad4
  intro c hc
  split at hc
  · rw [String.data_append] at hc
    rcases List.mem_append.mp hc with hc | hc
    · exact (by decide : ∀ x ∈ ("000" : String).data, x.isDigit = true) c hc
    · exact repr_digits _ c hc
  split at hc
  · rw [String.data_append] at hc
    rcases List.mem_append.mp hc with hc | hc
    · exact (by decide : ∀ x ∈ ("00" : String).data, x.isDigit = true) c hc
    · exact repr_digits _ c hc
  split at hc
  · rw [String.data_append] at hc
    rcases List.mem_append.mp hc with hc | hc
    · exact (by decide : ∀ x ∈ ("0" : String).data, x.isDigit = true) c hc
    · exact repr_digits _ c hc
  · exact repr_digits _ c hc

theorem stamp_length {d : DateTime} (hy : d.year < 10000) (hmo : d.month < 100)
    (hd : d.day < 100) (hh : d.hour < 100) (hmi : d.minute < 100) (hs : d.second < 100) :
    (stampYmdHms d).length = 14 := by
  unfold stampYmdHms
  rw [sLen_append, sLen_append, sLen_append, sLen_append, sLen_append,
    pad4_length hy, pad2_length hmo, pad2_length hd, pad2_length hh,
    pad2_length hmi, pad2_length hs]

theorem stamp_digits (d : DateTime) : ∀ c ∈ (stampYmdHms d).data, c.isDigit = true := by
  unfold stampYmdHms
  intro c hc
  simp only [String.data_append, List.mem_append] at hc
  rcases hc with ((((hc | hc) | hc) | hc) | hc) | hc
  · exact pad4_digits _ c hc
  all_goals exact pad2_digits _ c hc

instance : IsTrans ProcessedEmail keyLe := by
  constructor
  intro x y z h1 h2
  rcases h1 with ⟨hx, hy⟩ | ⟨hxy, hd1⟩
  · rcases h2 with ⟨hy', hz⟩ | ⟨hyz, hd2⟩
    · exact absurd (hy.symm.trans hy') (by simp)
    · exact Or.inl ⟨hx, hyz ▸ hy⟩
  · rcases h2 with ⟨hy', hz⟩ | ⟨hyz, hd2⟩
    · exact Or.inl ⟨hxy.trans hy', hz⟩
    · exact Or.inr ⟨hxy.trans hyz, listLeB_trans _ _ _ hd1 hd2⟩

/-! ### Facts about the per-message processing step -/

theorem processOne_subject (env : ExternalEnv) (e : EmailData) :
    (processOne env e).subject = e.subject := rfl

theorem processOne_body (env : ExternalEnv) (e : EmailData) :
    (processOne env e).body = e.body := rfl

theorem processOne_priority (env : ExternalEnv) (e : EmailData) :
    (processOne env e).priority = determine_priority e.subject e.body := rfl

theorem processOne_sentiment (env : ExternalEnv) (e : EmailData) :
    (processOne env e).sentiment =
      analyze_sentiment (env.sentimentApi e) (e.subject ++ " " ++ e.body) := rfl

theorem processOne_extracted (env : ExternalEnv) (e : EmailData) :
    (processOne env e).extracted_info =
      extract_key_info (env.emailsFound (e.subject ++ " " ++ e.body))
        (env.phonesFound (e.subject ++ " " ++ e.body)) e := rfl

theorem processOne_ai (env : ExternalEnv) (e : EmailData) :
    (processOne env e).ai_response =
      generate_ai_response (env.draftApi e) e (processOne env e).sentiment
        (processOne env e).priority env.now := rfl

theorem fallback_sentiment_mem (text : String) :
    fallback_sentiment text = "positive" ∨ fallback_sentiment text = "negative" ∨
      fallback_sentiment text = "neutral" := by
  simp only [fallback_sentiment]
  split_ifs <;> simp

theorem determine_priority_mem (subject body : String) :
    determine_priority subject body = "urgent" ∨ determine_priority subject body = "normal" := by
  simp only [determine_priority]
  split_ifs <;> simp

theorem extract_key_info_ne_nil (emails_found phones : List String) (e : EmailData) :
    extract_key_info emails_found phones e ≠ [] := by
  unfold extract_key_info
  split_ifs <;> simp

theorem generate_fallback_response_ne_empty (e : EmailData) (sentiment priority : String)
    (now : DateTime) : generate_fallback_response e sentiment priority now ≠ "" := by
  unfold generate_fallback_response urgentNegativeReply genericReply
  split_ifs <;> exact dear_ne_empty _

/-! ### Facts about the batch loop with a fallible store -/

theorem runStore_ok (env : ExternalEnv) (saveOk : ProcessedEmail → Bool) :
    ∀ (msgs : List EmailData) (acc att : List ProcessedEmail),
    (∀ m ∈ msgs, saveOk (processOne env m) = true) →
    runStore env saveOk msgs acc att =
      (Except.ok (List.insertionSort keyLe (acc ++ msgs.map (processOne env))),
       att ++ msgs.map (processOne env)) := by
  intro msgs
  induction msgs with
  | nil => intro acc att _; simp [runStore]
  | cons e rest ih =>
    intro acc att h
    have he : saveOk (processOne env e) = true := h e (by simp)
    simp only [runStore, he, if_true]
    rw [ih _ _ (fun m hm => h m (by simp [hm]))]
    simp

theorem runStore_fail (env : ExternalEnv) (saveOk : ProcessedEmail → Bool) :
    ∀ (pre : List EmailData) (e : EmailData) (rest : List EmailData)
      (acc att : List ProcessedEmail),
    (∀ m ∈ pre, saveOk (processOne env m) = true) →
    saveOk (processOne env e) = false →
    runStore env saveOk (pre ++ e :: rest) acc att =
      (Except.error (processOne env e),
       att ++ pre.map (processOne env) ++ [processOne env e]) := by
  intro pre
  induction pre with
  | nil =>
    intro e rest acc att _ hf
    simp only [List.nil_append, runStore, hf, if_false, List.map_nil]
    simp
  | cons q qre ih =>
    intro e rest acc att h hf
    have hq : saveOk (processOne env q) = true := h q (by simp)
    simp only [List.cons_append, runStore, hq, if_true, List.append_eq]
    rw [ih e rest _ _ (fun m hm => h m (by simp [hm])) hf]
    simp

theorem runStore_attempts (env : ExternalEnv) (saveOk : ProcessedEmail → Bool) :
    ∀ (msgs : List EmailData) (acc att : List ProcessedEmail),
    ∀ p ∈ (runStore env saveOk msgs acc att).2,
      p ∈ att ∨ ∃ m ∈ msgs, p = processOne env m := by
  intro msgs
  induction msgs with
  | nil => intro acc att p hp; exact Or.inl hp
  | cons e rest ih =>
    intro acc att p hp
    by_cases he : saveOk (processOne env e) = true
    · simp only [runStore, he, if_true] at hp
      rcases ih _ _ p hp with hmem | ⟨m, hm, rfl⟩
      · rcases List.mem_append.mp hmem with hmem | hmem
        · exact Or.inl hmem
        · exact Or.inr ⟨e, by simp, (List.mem_singleton.mp hmem)⟩
      · exact Or.inr ⟨m, by simp [hm], rfl⟩
    · simp only [runStore, he, if_false] at hp
      rcases List.mem_append.mp hp with hmem | hmem
      · exact Or.inl hmem
      · exact Or.inr ⟨e, by simp, (List.mem_singleton.mp hmem)⟩

/-! ### The two-key order seen through the claim's lenses -/

theorem keyLe_urgent {a b : ProcessedEmail} (h : keyLe a b) :
    b.priority = "urgent" → a.priority = "urgent" := by
  intro hb
  have hnb : notUrgent b = false := by simp [notUrgent, hb]
  rcases h with ⟨h1, h2⟩ | ⟨h1, h2⟩
  · rw [hnb] at h2; exact absurd h2 (by simp)
  · have h3 : notUrgent a = false := h1.trans hnb
    simp only [notUrgent, decide_eq_false_iff_not, not_not] at h3
    exact h3

theorem keyLe_date {a b : ProcessedEmail} (h : keyLe a b) (hp : a.priority = b.priority) :
    strLeB a.sent_date b.sent_date = true := by
  have heq : notUrgent a = notUrgent b := by simp [notUrgent, hp]
  rcases h with ⟨h1, h2⟩ | ⟨h1, h2⟩
  · rw [heq, h2] at h1; exact absurd h1 (by simp)
  · exact h2

theorem keyLe_of_same_key {a b : ProcessedEmail} (hp : a.priority = b.priority)
    (hd : a.sent_date = b.sent_date) : keyLe a b :=
  Or.inr ⟨by simp [notUrgent, hp], by rw [hd]; exact listLeB_refl _⟩

/-! ### Request-Type line recognition (for the extraction claims) -/

theorem listPrefixOf_cons_ne {a b : Char} {as bs : List Char} (h : ¬a = b) :
    listPrefixOf (a :: as) (b :: bs) = false := by
  simp [listPrefixOf, h]

theorem isRT_contact (j : String) : isRT ("Contact: " ++ j) = false := by
  unfold isRT
  have h1 : ("Request Type:" : String).data = 'R' :: ("equest Type:" : String).data := rfl
  have h2 : ("Contact: " ++ j).data = 'C' :: (("ontact: " : String).data ++ j.data) := by
    rw [String.data_append]; rfl
  rw [h1, h2]
  exact listPrefixOf_cons_ne (by decide)

theorem isRT_phone (j : String) : isRT ("Phone: " ++ j) = false := by
  unfold isRT
  have h1 : ("Request Type:" : String).data = 'R' :: ("equest Type:" : String).data := rfl
  have h2 : ("Phone: " ++ j).data = 'P' :: (("hone: " : String).data ++ j.data) := by
    rw [String.data_append]; rfl
  rw [h1, h2]
  exact listPrefixOf_cons_ne (by decide)

/-! ### Shape of `extract_key_info` -/

theorem extract_key_info_eq (emails_found phones : List String) (e : EmailData) :
    extract_key_info emails_found phones e =
      ((if emails_found.isEmpty then [] else ["Contact: " ++ joinComma emails_found]) ++
       (if phones.isEmpty then [] else ["Phone: " ++ joinComma phones])) ++
      [categoryLine (lowerStr (e.subject ++ " " ++ e.body))] := by
  by_cases hp : phones.isEmpty <;> by_cases he : emails_found.isEmpty <;>
    simp [extract_key_info, categoryLine, hp, he]

theorem isRT_categoryLine (tl : String) : isRT (categoryLine tl) = true := by
  unfold categoryLine
  split_ifs <;> decide

/-! ### Claim theorems -/

/-- C8: `determine_priority` returns `"urgent"` exactly when the lowercased
concatenation of subject and body contains one of the fixed urgent keywords as
a contiguous substring, and it returns nothing but `"urgent"` or `"normal"`.
The function is a pure computation (no external call appears in its model). -/
theorem C8_classify_priority (subject body : String) :
    (determine_priority subject body = "urgent" ↔
      ∃ k ∈ URGENT_KEYWORDS, ∃ a b,
        (lowerStr (subject ++ " " ++ body)).data = a ++ k.data ++ b) ∧
    (determine_priority subject body = "urgent" ∨ determine_priority subject body = "normal") := by
  refine ⟨?_, determine_priority_mem subject body⟩
  simp only [determine_priority]
  by_cases h : (URGENT_KEYWORDS.any fun keyword =>
      substrB keyword (lowerStr (subject ++ " " ++ body))) = true
  · rw [if_pos h]
    simp only [List.any_eq_true] at h
    refine ⟨fun _ => ?_, fun _ => rfl⟩
    rcases h with ⟨k, hk, hs⟩
    obtain ⟨a, b, hab⟩ := substr_iff.mp hs
    exact ⟨k, hk, a, b, hab⟩
  · rw [if_neg h]
    refine ⟨fun habs => absurd habs (by decide), ?_⟩
    rintro ⟨k, hk, a, b, hab⟩
    have hs : substrB k (lowerStr (subject ++ " " ++ body)) = true := substr_iff.mpr ⟨a, b, hab⟩
    exact absurd (List.any_eq_true.mpr ⟨k, hk, hs⟩) h

/-- C5: the sentiment fallback compares, over the lowercased text, how many
words of the fixed positive list and of the fixed negative list occur in the
text; it answers `"negative"` iff the negative count is strictly greater,
`"positive"` iff the positive count is strictly greater, and `"neutral"`
exactly in all remaining (tie) cases, including zero-zero. -/
theorem C5_fallback_tally (text : String) :
    (fallback_sentiment text = "negative" ↔
      positive_words.countP (fun word => substrB word (lowerStr text)) <
        negative_words.countP (fun word => substrB word (lowerStr text))) ∧
    (fallback_sentiment text = "positive" ↔
      negative_words.countP (fun word => substrB word (lowerStr text)) <
        positive_words.countP (fun word => substrB word (lowerStr text))) ∧
    (fallback_sentiment text = "neutral" ↔
      positive_words.countP (fun word => substrB word (lowerStr text)) =
        negative_words.countP (fun word => substrB word (lowerStr text))) := by
  simp only [fallback_sentiment]
  split_ifs with h1 h2
  · exact ⟨⟨fun _ => h1, fun _ => rfl⟩,
      ⟨fun h => absurd h (by decide), fun h => absurd h1 (by omega)⟩,
      ⟨fun h => absurd h (by decide), fun h => absurd h1 (by omega)⟩⟩
  · exact ⟨⟨fun h => absurd h (by decide), fun h => absurd h2 (by omega)⟩,
      ⟨fun _ => h2, fun _ => rfl⟩,
      ⟨fun h => absurd h (by decide), fun h => absurd h2 (by omega)⟩⟩
  · exact ⟨⟨fun h => absurd h (by decide), fun h => absurd h (by omega)⟩,
      ⟨fun h => absurd h (by decide), fun h => absurd h (by omega)⟩,
      ⟨fun _ => by omega, fun _ => rfl⟩⟩

/-- C3 counterexample: when the external classification call succeeds with the
reply `"excellent"` — which is not one of the three labels — `analyze_sentiment`
returns `"excellent"` verbatim instead of the keyword fallback's answer
(`"negative"` for the text `"bad"`), so the claimed label validation does not
exist in the code. -/
theorem C3_counterexample :
    analyze_sentiment (some "excellent") "bad" = "excellent" ∧
    lowerStr (trimStr "excellent") ∉ (["positive", "negative", "neutral"] : List String) ∧
    fallback_sentiment "bad" = "negative" ∧
    analyze_sentiment (some "excellent") "bad" ≠ fallback_sentiment "bad" :=
  ⟨by decide, by decide, by decide, by decide⟩

/-- C3 amended: a successful external reply is returned trimmed and lowercased
even when it is not one of the three labels (no validation of the label
happens); the deterministic keyword fallback is used exactly when the external
call fails. -/
theorem C3_no_label_validation (reply text : String) :
    (lowerStr (trimStr reply) ∉ (["positive", "negative", "neutral"] : List String) →
      analyze_sentiment (some reply) text = lowerStr (trimStr reply)) ∧
    analyze_sentiment none text = fallback_sentiment text :=
  ⟨fun _ => rfl, rfl⟩

/-- C3 witness: the amended statement evaluated at the unrecognized reply
`"excellent"` and the text `"bad"`. -/
theorem C3_no_label_validation_witness :
    analyze_sentiment (some "excellent") "bad" = lowerStr (trimStr "excellent") ∧
    analyze_sentiment none "bad" = fallback_sentiment "bad" :=
  ⟨(C3_no_label_validation "excellent" "bad").1 (by decide),
   (C3_no_label_validation "excellent" "bad").2⟩

/-- C2: for every message (and any outcome of the two regex searches),
`extract_key_info` returns a non-empty list containing exactly one line that
starts with `"Request Type:"`, and the category on that line follows the fixed
first-match precedence billing/payment, then login/account, then
integration/api, then refund, then pricing, then General Support. -/
theorem C2_request_type_line (emails_found phones : List String) (e : EmailData) :
    extract_key_info emails_found phones e ≠ [] ∧
    (extract_key_info emails_found phones e).countP isRT = 1 ∧
    ((substrB ("billing") (lowerStr (e.subject ++ " " ++ e.body)) ||
        substrB ("payment") (lowerStr (e.subject ++ " " ++ e.body))) = true →
      "Request Type: Billing Issue" ∈ extract_key_info emails_found phones e) ∧
    ((substrB ("billing") (lowerStr (e.subject ++ " " ++ e.body)) ||
        substrB ("payment") (lowerStr (e.subject ++ " " ++ e.body))) = false →
      (substrB ("login") (lowerStr (e.subject ++ " " ++ e.body)) ||
        substrB ("account") (lowerStr (e.subject ++ " " ++ e.body))) = true →
      "Request Type: Account Access" ∈ extract_key_info emails_found phones e) ∧
    ((substrB ("billing") (lowerStr (e.subject ++ " " ++ e.body)) ||
        substrB ("payment") (lowerStr (e.subject ++ " " ++ e.body))) = false →
      (substrB ("login") (lowerStr (e.subject ++ " " ++ e.body)) ||
        substrB ("account") (lowerStr (e.subject ++ " " ++ e.body))) = false →
      (substrB ("integration") (lowerStr (e.subject ++ " " ++ e.body)) ||
        substrB ("api") (lowerStr (e.subject ++ " " ++ e.body))) = true →
      "Request Type: Technical Integration" ∈ extract_key_info emails_found phones e) ∧
    ((substrB ("billing") (lowerStr (e.subject ++ " " ++ e.body)) ||
        substrB ("payment") (lowerStr (e.subject ++ " " ++ e.body))) = false →
      (substrB ("login") (lowerStr (e.subject ++ " " ++ e.body)) ||
        substrB ("account") (lowerStr (e.subject ++ " " ++ e.body))) = false →
      (substrB ("integration") (lowerStr (e.subject ++ " " ++ e.body)) ||
        substrB ("api") (lowerStr (e.subject ++ " " ++ e.body))) = false →
      substrB ("refund") (lowerStr (e.subject ++ " " ++ e.body)) = true →
      "Request Type: Refund Request" ∈ extract_key_info emails_found phones e) ∧
    ((substrB ("billing") (lowerStr (e.subject ++ " " ++ e.body)) ||
        substrB ("payment") (lowerStr (e.subject ++ " " ++ e.body))) = false →
      (substrB ("login") (lowerStr (e.subject ++ " " ++ e.body)) ||
        substrB ("account") (lowerStr (e.subject ++ " " ++ e.body))) = false →
      (substrB ("integration") (lowerStr (e.subject ++ " " ++ e.body)) ||
        substrB ("api") (lowerStr (e.subject ++ " " ++ e.body))) = false →
      substrB ("refund") (lowerStr (e.subject ++ " " ++ e.body)) = false →
      substrB ("pricing") (lowerStr (e.subject ++ " " ++ e.body)) = true →
      "Request Type: Pricing Inquiry" ∈ extract_key_info emails_found phones e) ∧
    ((substrB ("billing") (lowerStr (e.subject ++ " " ++ e.body)) ||
        substrB ("payment") (lowerStr (e.subject ++ " " ++ e.body))) = false →
      (substrB ("login") (lowerStr (e.subject ++ " " ++ e.body)) ||
        substrB ("account") (lowerStr (e.subject ++ " " ++ e.body))) = false →
      (substrB ("integration") (lowerStr (e.subject ++ " " ++ e.body)) ||
        substrB ("api") (lowerStr (e.subject ++ " " ++ e.body))) = false →
      substrB ("refund") (lowerStr (e.subject ++ " " ++ e.body)) = false →
      substrB ("pricing") (lowerStr (e.subject ++ " " ++ e.body)) = false →
      "Request Type: General Support" ∈ extract_key_info emails_found phones e) := by
  rw [extract_key_info_eq]
  have hpre : ((if emails_found.isEmpty then [] else ["Contact: " ++ joinComma emails_found]) ++
      (if phones.isEmpty then [] else ["Phone: " ++ joinComma phones])).countP isRT = 0 := by
    split_ifs <;>
      simp [List.countP_cons, List.countP_nil, isRT_contact, isRT_phone, List.countP_append]
  have hmem : ∀ c : String, categoryLine (lowerStr (e.subject ++ " " ++ e.body)) = c →
      c ∈ ((if emails_found.isEmpty then [] else ["Contact: " ++ joinComma emails_found]) ++
        (if phones.isEmpty then [] else ["Phone: " ++ joinComma phones])) ++
        [categoryLine (lowerStr (e.subject ++ " " ++ e.body))] := by
    rintro c rfl
    exact List.mem_append_right _ (by simp)
  refine ⟨by simp, ?_, ?_, ?_, ?_, ?_, ?_, ?_⟩
  · rw [List.countP_append, hpre, List.countP_cons, List.countP_nil, isRT_categoryLine]
    simp
  · intro h1
    refine hmem _ ?_
    unfold categoryLine
    rw [if_pos h1]
  · intro h1 h2
    refine hmem _ ?_
    unfold categoryLine
    rw [if_neg (by simp [h1]), if_pos h2]
  · intro h1 h2 h3
    refine hmem _ ?_
    unfold categoryLine
    rw [if_neg (by simp [h1]), if_neg (by simp [h2]), if_pos h3]
  · intro h1 h2 h3 h4
    refine hmem _ ?_
    unfold categoryLine
    rw [if_neg (by simp [h1]), if_neg (by simp [h2]), if_neg (by simp [h3]), if_pos h4]
  · intro h1 h2 h3 h4 h5
    refine hmem _ ?_
    unfold categoryLine
    rw [if_neg (by simp [h1]), if_neg (by simp [h2]), if_neg (by simp [h3]),
      if_neg (by simp [h4]), if_pos h5]
  · intro h1 h2 h3 h4 h5
    refine hmem _ ?_
    unfold categoryLine
    rw [if_neg (by simp [h1]), if_neg (by simp [h2]), if_neg (by simp [h3]),
      if_neg (by simp [h4]), if_neg (by simp [h5])]

/-- C2 witness: the Request-Type guarantees evaluated on a message whose text
mentions both billing and login; the billing category wins by precedence. -/
theorem C2_request_type_line_witness :
    extract_key_info ["a@b.co"] [] ⟨"a@b.co", "billing and login", "x", "d"⟩ ≠ [] ∧
    (extract_key_info ["a@b.co"] [] ⟨"a@b.co", "billing and login", "x", "d"⟩).countP isRT = 1 ∧
    "Request Type: Billing Issue" ∈
      extract_key_info ["a@b.co"] [] ⟨"a@b.co", "billing and login", "x", "d"⟩ :=
  ⟨(C2_request_type_line ["a@b.co"] [] ⟨"a@b.co", "billing and login", "x", "d"⟩).1,
   (C2_request_type_line ["a@b.co"] [] ⟨"a@b.co", "billing and login", "x", "d"⟩).2.1,
   (C2_request_type_line ["a@b.co"] [] ⟨"a@b.co", "billing and login", "x", "d"⟩).2.2.1
     (by decide)⟩

/-- C1: the batch returned by `process_emails` is the stable two-key ordering
of the processed messages: no normal-priority result precedes an urgent one,
results of equal priority are in ascending raw-string order of `sent_date`,
and for every exact key (priority, sent_date) the subsequence of results with
that key equals the corresponding subsequence of the processed messages in
original fetch order; the output is a permutation of the processed input. -/
theorem C1_batch_ordering (env : ExternalEnv) (emails : List EmailData) :
    List.Pairwise (fun a b => b.priority = "urgent" → a.priority = "urgent")
      (process_emails env emails) ∧
    List.Pairwise (fun a b => a.priority = b.priority → strLeB a.sent_date b.sent_date = true)
      (process_emails env emails) ∧
    (∀ pr d : String,
      (process_emails env emails).filter
          (fun x => decide (x.priority = pr ∧ x.sent_date = d)) =
        (emails.map (processOne env)).filter
          (fun x => decide (x.priority = pr ∧ x.sent_date = d))) ∧
    (process_emails env emails).Perm (emails.map (processOne env)) := by
  simp only [process_emails]
  have hsorted : List.Pairwise keyLe (List.insertionSort keyLe (emails.map (processOne env))) :=
    List.sorted_insertionSort keyLe _
  have hperm :
      (List.insertionSort keyLe (emails.map (processOne env))).Perm
        (emails.map (processOne env)) :=
    List.perm_insertionSort keyLe _
  refine ⟨?_, ?_, ?_, hperm⟩
  · exact hsorted.imp (fun hab => keyLe_urgent hab)
  · exact hsorted.imp (fun hab hp => keyLe_date hab hp)
  · intro pr d
    have hpair : List.Pairwise keyLe ((emails.map (processOne env)).filter
        (fun x => decide (x.priority = pr ∧ x.sent_date = d))) := by
      apply List.pairwise_of_forall_mem_list
      intro x hx y hy
      have hx' := (List.mem_filter.mp hx).2
      have hy' := (List.mem_filter.mp hy).2
      simp only [decide_eq_true_eq] at hx' hy'
      exact keyLe_of_same_key (hx'.1.trans hy'.1.symm) (hx'.2.trans hy'.2.symm)
    have hsub : List.Sublist
        ((emails.map (processOne env)).filter
          (fun x => decide (x.priority = pr ∧ x.sent_date = d)))
        (List.insertionSort keyLe (emails.map (processOne env))) :=
      List.sublist_insertionSort hpair (List.filter_sublist _)
    have hself : ((emails.map (processOne env)).filter
        (fun x => decide (x.priority = pr ∧ x.sent_date = d))).filter
        (fun x => decide (x.priority = pr ∧ x.sent_date = d)) =
        (emails.map (processOne env)).filter
          (fun x => decide (x.priority = pr ∧ x.sent_date = d)) :=
      List.filter_eq_self.mpr (fun a ha => (List.mem_filter.mp ha).2)
    have hsub2 : List.Sublist
        ((emails.map (processOne env)).filter
          (fun x => decide (x.priority = pr ∧ x.sent_date = d)))
        ((List.insertionSort keyLe (emails.map (processOne env))).filter
          (fun x => decide (x.priority = pr ∧ x.sent_date = d))) := by
      have h2 := hsub.filter (fun x => decide (x.priority = pr ∧ x.sent_date = d))
      rwa [hself] at h2
    have hpermf := hperm.filter (fun x => decide (x.priority = pr ∧ x.sent_date = d))
    exact (hsub2.eq_of_length hpermf.length_eq.symm).symm

/-- C1 witness: the ordering guarantees instantiated at a concrete
environment and two-message batch. -/
theorem C1_batch_ordering_witness :
    (process_emails cEnv [cm1, cm2]).Perm ([cm1, cm2].map (processOne cEnv)) :=
  (C1_batch_ordering cEnv [cm1, cm2]).2.2.2

/-- C6: when every external generative-text call fails (classification and
drafting both return no reply), the pipeline still completes: the run with a
working store returns the full sorted batch, one result per input message,
and every result is fully populated — its sentiment is the keyword fallback's
answer (one of the three labels), its priority is one of the two labels, its
extracted info is non-empty and its drafted reply is non-empty. No failure
escapes to the caller. -/
theorem C6_outage_totality (env : ExternalEnv) (emails : List EmailData)
    (hs : ∀ e, env.sentimentApi e = none) (hd : ∀ e, env.draftApi e = none) :
    (process_emailsRun env (fun _ => true) emails).1 = Except.ok (process_emails env emails) ∧
    (process_emails env emails).length = emails.length ∧
    ∀ p ∈ process_emails env emails,
      p.sentiment = fallback_sentiment (p.subject ++ " " ++ p.body) ∧
      (p.sentiment = "positive" ∨ p.sentiment = "negative" ∨ p.sentiment = "neutral") ∧
      (p.priority = "urgent" ∨ p.priority = "normal") ∧
      p.extracted_info ≠ [] ∧
      p.ai_response ≠ "" := by
  refine ⟨?_, ?_, ?_⟩
  · show (runStore env (fun _ => true) emails [] []).1 = _
    rw [runStore_ok env _ emails [] [] (fun m _ => rfl)]
    simp [process_emails]
  · simp [process_emails, List.length_insertionSort]
  · intro p hp
    simp only [process_emails] at hp
    have hp' : p ∈ emails.map (processOne env) := (List.mem_insertionSort keyLe).mp hp
    obtain ⟨e, he, rfl⟩ := List.mem_map.mp hp'
    have hsent : (processOne env e).sentiment = fallback_sentiment (e.subject ++ " " ++ e.body) := by
      rw [processOne_sentiment, hs e]
      rfl
    have hai : (processOne env e).ai_response =
        generate_fallback_response e (processOne env e).sentiment
          (processOne env e).priority env.now := by
      rw [processOne_ai, hd e]
      rfl
    refine ⟨?_, ?_, ?_, ?_, ?_⟩
    · rw [processOne_subject, processOne_body]
      exact hsent
    · rw [hsent]
      exact fallback_sentiment_mem _
    · rw [processOne_priority]
      exact determine_priority_mem _ _
    · rw [processOne_extracted]
      exact extract_key_info_ne_nil _ _ _
    · rw [hai]
      exact generate_fallback_response_ne_empty _ _ _ _

/-- C6 witness: the outage guarantees evaluated on a concrete one-message
batch with both external calls failing. -/
theorem C6_outage_totality_witness :
    (process_emailsRun
        { sentimentApi := fun _ => none, draftApi := fun _ => none,
          emailsFound := fun _ => [], phonesFound := fun _ => [],
          now := ⟨2024, 1, 2, 3, 4, 5⟩ } (fun _ => true)
        [⟨"joe@x.com", "help", "cannot login", "2024-01-01"⟩]).1 =
      Except.ok (process_emails
        { sentimentApi := fun _ => none, draftApi := fun _ => none,
          emailsFound := fun _ => [], phonesFound := fun _ => [],
          now := ⟨2024, 1, 2, 3, 4, 5⟩ }
        [⟨"joe@x.com", "help", "cannot login", "2024-01-01"⟩]) ∧
    (process_emails
        { sentimentApi := fun _ => none, draftApi := fun _ => none,
          emailsFound := fun _ => [], phonesFound := fun _ => [],
          now := ⟨2024, 1, 2, 3, 4, 5⟩ }
        [⟨"joe@x.com", "help", "cannot login", "2024-01-01"⟩]).length = 1 :=
  ⟨(C6_outage_totality _ _ (fun _ => rfl) (fun _ => rfl)).1,
   (C6_outage_totality _ _ (fun _ => rfl) (fun _ => rfl)).2.1⟩

/-- C4 counterexample: with a store that fails on the first message's insert,
the batch loop raises out of `process_emails` — the second support-relevant
message is neither persisted (the only insert attempt is the failing first
one) nor returned (no result list is returned at all), refuting the claimed
per-item isolation. -/
theorem C4_counterexample :
    (process_emailsRun cEnv cSaveOk [cm1, cm2]).1 = Except.error (processOne cEnv cm1) ∧
    (process_emailsRun cEnv cSaveOk [cm1, cm2]).2 = [processOne cEnv cm1] ∧
    processOne cEnv cm2 ∉ (process_emailsRun cEnv cSaveOk [cm1, cm2]).2 := by
  refine ⟨?_, ?_, ?_⟩
  · set_option maxRecDepth 40000 in rfl
  · set_option maxRecDepth 40000 in rfl
  · set_option maxRecDepth 40000 in decide

/-- C4 amended: a failing insert aborts the batch at that point, as the
uncaught exception propagates out of the loop: when every message before `e`
saves fine and the insert for `e` raises, `process_emails` raises (returns no
result sequence), the messages after `e` are never processed, and the insert
attempts are exactly those for the prefix plus the failing one. -/
theorem C4_store_failure_aborts (env : ExternalEnv) (saveOk : ProcessedEmail → Bool)
    (pre : List EmailData) (e : EmailData) (rest : List EmailData)
    (hpre : ∀ m ∈ pre, saveOk (processOne env m) = true)
    (he : saveOk (processOne env e) = false) :
    process_emailsRun env saveOk (pre ++ e :: rest) =
      (Except.error (processOne env e),
       pre.map (processOne env) ++ [processOne env e]) := by
  show runStore env saveOk (pre ++ e :: rest) [] [] = _
  rw [runStore_fail env saveOk pre e rest [] [] hpre he]
  simp

/-- C4 witness: the amended statement evaluated on the concrete two-message
batch whose first insert fails. -/
theorem C4_store_failure_aborts_witness :
    process_emailsRun cEnv cSaveOk [cm1, cm2] =
      (Except.error (processOne cEnv cm1), [processOne cEnv cm1]) := by
  have h := C4_store_failure_aborts cEnv cSaveOk [] cm1 [cm2] (by simp)
    (by set_option maxRecDepth 40000 in decide)
  simpa using h

/-- C9: a fetched message is kept exactly when the lowercased concatenation of
its subject and body contains a support keyword; messages without one are not
in the filtered batch, and every record that reaches the store during the
batch run stems from a support-relevant message. -/
theorem C9_support_filter (raws : List EmailData) (env : ExternalEnv)
    (saveOk : ProcessedEmail → Bool) :
    (∀ m : EmailData, m ∈ fetch_filter raws ↔
      m ∈ raws ∧ is_support_email m.subject m.body = true) ∧
    (∀ m ∈ raws, is_support_email m.subject m.body = false → m ∉ fetch_filter raws) ∧
    (∀ p ∈ (process_emailsRun env saveOk (fetch_filter raws)).2,
      is_support_email p.subject p.body = true ∧
      ∃ m ∈ raws, is_support_email m.subject m.body = true ∧ p = processOne env m) := by
  refine ⟨?_, ?_, ?_⟩
  · intro m
    simp [fetch_filter, List.mem_filter]
  · intro m hm hf hmem
    rw [fetch_filter] at hmem
    have h2 := (List.mem_filter.mp hmem).2
    rw [hf] at h2
    exact absurd h2 (by simp)
  · intro p hp
    rcases runStore_attempts env saveOk (fetch_filter raws) [] [] p hp with hmem | ⟨m, hm, rfl⟩
    · exact absurd hmem (List.not_mem_nil p)
    · have hm2 := List.mem_filter.mp hm
      refine ⟨?_, m, hm2.1, hm2.2, rfl⟩
      rw [processOne_subject, processOne_body]
      exact hm2.2

/-- C9 witness: the filter guarantees evaluated at a concrete pair of
messages, one support-relevant and one not. -/
theorem C9_support_filter_witness :
    cns ∉ fetch_filter [cs1, cns] ∧ cs1 ∈ fetch_filter [cs1, cns] :=
  ⟨(C9_support_filter [cs1, cns] cEnv (fun _ => true)).2.1 cns (by decide) (by decide),
   ((C9_support_filter [cs1, cns] cEnv (fun _ => true)).1 cs1).mpr ⟨by decide, by decide⟩⟩

/-- C10: the send-confirmation flow is a frame-preserving status update over
reachable stores (every row pending or sent). A failed send changes nothing
and reports failure; a successful send keeps the table length and every
non-status field of every row, sets the status of each row whose sender and
subject match the request to sent, changes a status only from pending to
sent, and leaves non-matching rows entirely unchanged. -/
theorem C10_send_status_frame (db : List EmailRow) (sendOk : Bool)
    (recipient subject response : String)
    (hst : ∀ r ∈ db, r.status = "pending" ∨ r.status = "sent") :
    (sendOk = false → send_response db sendOk recipient subject response = (db, false)) ∧
    (sendOk = true →
      (send_response db sendOk recipient subject response).2 = true ∧
      (send_response db sendOk recipient subject response).1.length = db.length ∧
      (send_response db sendOk recipient subject response).1.map rowContent =
        db.map rowContent ∧
      ∀ i : Nat, ∀ h1 : i < db.length,
        ∀ h2 : i < (send_response db sendOk recipient subject response).1.length,
        (((send_response db sendOk recipient subject response).1.get ⟨i, h2⟩).status =
            (db.get ⟨i, h1⟩).status ∨
          ((db.get ⟨i, h1⟩).status = "pending" ∧
            ((send_response db sendOk recipient subject response).1.get ⟨i, h2⟩).status =
              "sent")) ∧
        ((db.get ⟨i, h1⟩).sender = recipient ∧ (db.get ⟨i, h1⟩).subject = subject →
          ((send_response db sendOk recipient subject response).1.get ⟨i, h2⟩).status =
            "sent") ∧
        (¬((db.get ⟨i, h1⟩).sender = recipient ∧ (db.get ⟨i, h1⟩).subject = subject) →
          (send_response db sendOk recipient subject response).1.get ⟨i, h2⟩ =
            db.get ⟨i, h1⟩)) := by
  constructor
  · intro h
    subst h
    rfl
  · intro h
    subst h
    have hdb : (send_response db true recipient subject response).1 =
        db.map (fun r => if r.sender = recipient ∧ r.subject = subject
          then { r with status := "sent" } else r) := by
      simp [send_response]
    refine ⟨by simp [send_response], ?_, ?_, ?_⟩
    · rw [hdb, List.length_map]
    · rw [hdb, List.map_map]
      refine List.map_congr_left (fun r _ => ?_)
      simp only [Function.comp]
      split_ifs <;> rfl
    · intro i h1 h2
      have hget : (send_response db true recipient subject response).1.get ⟨i, h2⟩ =
          (if (db.get ⟨i, h1⟩).sender = recipient ∧ (db.get ⟨i, h1⟩).subject = subject
            then { db.get ⟨i, h1⟩ with status := "sent" } else db.get ⟨i, h1⟩) := by
        simp only [List.get_eq_getElem, hdb, List.getElem_map]
      have hr := hst (db.get ⟨i, h1⟩) (List.get_mem db i h1)
      by_cases hc : (db.get ⟨i, h1⟩).sender = recipient ∧ (db.get ⟨i, h1⟩).subject = subject
      · refine ⟨?_, fun _ => ?_, fun hn => absurd hc hn⟩
        · rcases hr with hp | hp
          · refine Or.inr ⟨hp, ?_⟩
            rw [hget]
            simp only [List.get_eq_getElem] at hc ⊢
            simp [hc]
          · refine Or.inl ?_
            rw [hget]
            simp only [List.get_eq_getElem] at hc hp ⊢
            simp [hc, hp]
        · rw [hget]
          simp only [List.get_eq_getElem] at hc ⊢
          simp [hc]
      · refine ⟨Or.inl ?_, fun hcc => absurd hcc hc, fun _ => ?_⟩
        · rw [hget]
          simp only [List.get_eq_getElem] at hc ⊢
          simp [hc]
        · rw [hget]
          simp only [List.get_eq_getElem] at hc ⊢
          simp [hc]

/-- C10 witness: the frame conditions evaluated on a concrete two-row table —
a failed send returns the table unchanged, and a successful send preserves
every non-status field. -/
theorem C10_send_status_frame_witness :
    send_response [cRow1, cRow2] false "alice@x" "subj" "ok" = ([cRow1, cRow2], false) ∧
    (send_response [cRow1, cRow2] true "alice@x" "subj" "ok").1.map rowContent =
      [cRow1, cRow2].map rowContent :=
  ⟨(C10_send_status_frame [cRow1, cRow2] false "alice@x" "subj" "ok" (by decide)).1 rfl,
   ((C10_send_status_frame [cRow1, cRow2] true "alice@x" "subj" "ok" (by decide)).2 rfl).2.2.1⟩

/-- C7: for every message and valid clock reading, the fallback drafter emits
a case identifier `CS` followed by the 14-digit `YYYYMMDDHHMMSS` stamp; when
priority is urgent and sentiment negative, the reply carries the apology, the
escalation language and the promise of an update within the next 2 hours;
in every other combination it carries the generic acknowledgment, with the
timeline sentence prefixed by the urgency qualifier clause and a 2-hour
timeline when urgent, and with a 24-hour timeline when priority is normal. -/
theorem C7_fallback_draft (e : EmailData) (sentiment priority : String) (now : DateTime)
    (hy : now.year < 10000) (hmo : now.month ≤ 12) (hda : now.day ≤ 31)
    (hh : now.hour ≤ 23) (hmi : now.minute ≤ 59) (hse : now.second ≤ 59) :
    ((stampYmdHms now).length = 14 ∧ ∀ c ∈ (stampYmdHms now).data, c.isDigit = true) ∧
    (priority = "urgent" → sentiment = "negative" →
      substrB ("sincerely apologize")
        (generate_fallback_response e sentiment priority now) = true ∧
      substrB ("escalated your case as urgent")
        (generate_fallback_response e sentiment priority now) = true ∧
      substrB ("You can expect an update within the next 2 hours")
        (generate_fallback_response e sentiment priority now) = true ∧
      substrB ("Case Number: CS" ++ stampYmdHms now)
        (generate_fallback_response e sentiment priority now) = true) ∧
    (priority = "urgent" → ¬sentiment = "negative" →
      substrB ("Thank you for contacting our support team")
        (generate_fallback_response e sentiment priority now) = true ∧
      substrB ("Given the urgent nature of your request, We\x27ll provide you with a comprehensive response within 2 hours")
        (generate_fallback_response e sentiment priority now) = true ∧
      substrB ("Case Number: CS" ++ stampYmdHms now)
        (generate_fallback_response e sentiment priority now) = true) ∧
    (priority = "normal" →
      substrB ("Thank you for contacting our support team")
        (generate_fallback_response e sentiment priority now) = true ∧
      substrB ("We\x27ll provide you with a comprehensive response within 24 hours")
        (generate_fallback_response e sentiment priority now) = true ∧
      substrB ("Case Number: CS" ++ stampYmdHms now)
        (generate_fallback_response e sentiment priority now) = true) := by
  refine ⟨⟨stamp_length hy (by omega) (by omega) (by omega) (by omega) (by omega),
    stamp_digits now⟩, ?_, ?_, ?_⟩
  · intro hpu hsn
    have hresp : generate_fallback_response e sentiment priority now =
        urgentNegativeReply (senderDisplayName e.sender) ("CS" ++ stampYmdHms now) := by
      unfold generate_fallback_response
      rw [if_pos ⟨hpu, hsn⟩]
    rw [hresp]
    unfold urgentNegativeReply
    refine ⟨?_, ?_, ?_, ?_⟩
    · exact substr_appendR _ (substr_appendR _ (substr_appendR _ (substr_appendL _
        (by set_option maxRecDepth 20000 in decide))))
    · exact substr_appendR _ (substr_appendR _ (substr_appendR _ (substr_appendL _
        (by set_option maxRecDepth 20000 in decide))))
    · exact substr_appendR _ (substr_appendR _ (substr_appendR _ (substr_appendL _
        (by set_option maxRecDepth 20000 in decide))))
    · apply substr_build
        (("Dear " : String).data ++ (senderDisplayName e.sender).data ++ unBody.data)
        (signTail.data)
      set_option maxRecDepth 20000 in
        simp [caseLbl, String.data_append, List.append_assoc]
  · intro hpu hsn
    have hresp : generate_fallback_response e sentiment priority now =
        genericReply (senderDisplayName e.sender) priority ("CS" ++ stampYmdHms now) := by
      unfold generate_fallback_response
      rw [if_neg (by rintro ⟨-, h2⟩; exact hsn h2)]
    rw [hresp]
    simp only [genericReply]
    rw [if_pos hpu, if_pos hpu]
    refine ⟨?_, ?_, ?_⟩
    · exact substr_appendR _ (substr_appendR _ (substr_appendR _ (substr_appendR _
        (substr_appendR _ (substr_appendR _ (substr_appendL _
          (by set_option maxRecDepth 20000 in decide)))))))
    · apply substr_build
        (("Dear " : String).data ++ (senderDisplayName e.sender).data ++ genMid.data)
        (caseMid.data ++ ("CS" : String).data ++ (stampYmdHms now).data ++ signTail.data)
      set_option maxRecDepth 20000 in
        simp [urgencyClause, provideLit, String.data_append, List.append_assoc]
    · apply substr_build
        (("Dear " : String).data ++ (senderDisplayName e.sender).data ++ genMid.data ++
          urgencyClause.data ++ provideLit.data ++ ("2 hours" : String).data ++
          (".\n\n" : String).data)
        (signTail.data)
      set_option maxRecDepth 20000 in
        simp [caseMid, String.data_append, List.append_assoc]
  · intro hpn
    have hpu' : ¬priority = "urgent" := by rw [hpn]; decide
    have hresp : generate_fallback_response e sentiment priority now =
        genericReply (senderDisplayName e.sender) priority ("CS" ++ stampYmdHms now) := by
      unfold generate_fallback_response
      rw [if_neg (by rintro ⟨h1, -⟩; exact hpu' h1)]
    rw [hresp]
    simp only [genericReply]
    rw [if_neg hpu', if_neg hpu', String.append_empty]
    refine ⟨?_, ?_, ?_⟩
    · exact substr_appendR _ (substr_appendR _ (substr_appendR _ (substr_appendR _
        (substr_appendR _ (substr_appendL _
          (by set_option maxRecDepth 20000 in decide))))))
    · apply substr_build
        (("Dear " : String).data ++ (senderDisplayName e.sender).data ++ genMid.data)
        (caseMid.data ++ ("CS" : String).data ++ (stampYmdHms now).data ++ signTail.data)
      set_option maxRecDepth 20000 in
        simp [provideLit, String.data_append, List.append_assoc]
    · apply substr_build
        (("Dear " : String).data ++ (senderDisplayName e.sender).data ++ genMid.data ++
          provideLit.data ++ ("24 hours" : String).data ++ (".\n\n" : String).data)
        (signTail.data)
      set_option maxRecDepth 20000 in
        simp [caseMid, String.data_append, List.append_assoc]

/-- C7 witness: the drafting guarantees evaluated at a concrete message and
clock, for the urgent-negative and the normal cases. -/
theorem C7_fallback_draft_witness :
    (stampYmdHms ⟨2024, 1, 2, 3, 4, 5⟩).length = 14 ∧
    substrB ("Case Number: CS" ++ stampYmdHms ⟨2024, 1, 2, 3, 4, 5⟩)
      (generate_fallback_response ⟨"joe@x.com", "s", "b", "d"⟩ "negative" "urgent"
        ⟨2024, 1, 2, 3, 4, 5⟩) = true ∧
    substrB ("We\x27ll provide you with a comprehensive response within 24 hours")
      (generate_fallback_response ⟨"joe@x.com", "s", "b", "d"⟩ "neutral" "normal"
        ⟨2024, 1, 2, 3, 4, 5⟩) = true := by
  refine ⟨?_, ?_, ?_⟩
  · exact (C7_fallback_draft ⟨"joe@x.com", "s", "b", "d"⟩ "negative" "urgent"
      ⟨2024, 1, 2, 3, 4, 5⟩ (by decide) (by decide) (by decide) (by decide) (by decide)
      (by decide)).1.1
  · exact ((C7_fallback_draft ⟨"joe@x.com", "s", "b", "d"⟩ "negative" "urgent"
      ⟨2024, 1, 2, 3, 4, 5⟩ (by decide) (by decide) (by decide) (by decide) (by decide)
      (by decide)).2.1 rfl rfl).2.2.2
  · exact ((C7_fallback_draft ⟨"joe@x.com", "s", "b", "d"⟩ "neutral" "normal"
      ⟨2024, 1, 2, 3, 4, 5⟩ (by decide) (by decide) (by decide) (by decide) (by decide)
      (by decide)).2.2.2 rfl).2.1

end Backend
